import Mathlib

set_option linter.unusedVariables false

/-!
Shallow embedding of `django_graph_api_mail_backend/graph_api_mail_backend.py`.

The backend's two injected collaborators (`get_now` and `create_session`)
become deterministic oracles: a clock `Nat → Int` (timestamps in seconds,
indexed by how many clock reads have happened so far) and a transport script
`Nat → PostOutcome` (indexed by how many POSTs have happened so far).  Every
POST is recorded in a trace together with the session headers it carried and
its scripted outcome, so theorems can speak about which network calls were
made and with what Authorization header.  Python exceptions are modelled as
`PyError` values threaded through `Except`; the final state is always
returned alongside the `Except` result so that aborted runs can still be
inspected.  MIME rendering of a message is an external collaborator in the
source, so a send POST's payload is represented by the message value itself.
-/

/-- Python exceptions that the backend's control flow distinguishes.
`requestException true` stands for an `HTTPError` raised by
`raise_for_status` (it carries a response); `requestException false` for a
transport-level `RequestException` raised by `post` itself. -/
inductive PyError where
  | requestException (has_response : Bool)
  | attributeError
  | keyError
deriving DecidableEq

/-- The `GraphAPIAccessToken` namedtuple (source line 15). -/
structure GraphAPIAccessToken where
  value : String
  expires_in_seconds : Int
  refresh_token : String
  access_timestamp : Int
deriving DecidableEq

/-- The headers dict assigned to the HTTP session in `open` (lines 77-80). -/
structure SessionHeaders where
  content_type : String
  authorization : String
deriving DecidableEq

/-- A `requests.Session`: the only state the backend reads back from it is
its headers (none until `open` assigns them). -/
structure HttpSession where
  headers : Option SessionHeaders
deriving DecidableEq

/-- JSON body of a successful token-endpoint response. -/
structure TokenResponseJson where
  access_token : String
  expires_in : Int
  refresh_token : String
deriving DecidableEq

/-- Outcome of one scripted POST: a response (with its `ok` flag, status code
and decoded JSON body when applicable), or a transport-level raise. -/
inductive PostOutcome where
  | response (ok : Bool) (status_code : Int) (json : Option TokenResponseJson)
  | raiseRequestException
deriving DecidableEq

/-- A `django.core.mail.EmailMessage` as far as the backend reads it:
sender, recipient lists and a subject (used in log reports).  Rendering of
the MIME payload is an external collaborator and is not modelled. -/
structure EmailMessage where
  subject : String
  body : String
  from_email : String
  to_addrs : List String
  cc : List String
  bcc : List String
deriving DecidableEq

/-- `EmailMessage.recipients()`: To + Cc + Bcc. -/
def recipients (m : EmailMessage) : List String :=
  m.to_addrs ++ m.cc ++ m.bcc

/-- Form payload of a POST: a token-endpoint request (acquisition or
refresh, distinguished by `grant_type`) or a send-mail request carrying the
message whose rendered MIME bytes are posted. -/
inductive PostData where
  | tokenRequest (grant_type : String) (client_id : String)
      (client_secret : String) (refresh_tok : Option String)
      (scope : Option String)
  | sendMail (message : EmailMessage)
deriving DecidableEq

/-- One recorded POST: target URL, payload, the session headers in force
when it was issued, and its scripted outcome. -/
structure Request where
  url : String
  data : PostData
  headers : Option SessionHeaders
  outcome : PostOutcome
deriving DecidableEq

/-- LOGGER output events the backend emits. -/
inductive Report where
  | skippedNoRecipients (subject : String)
  | acquisitionFailure
  | sendFailure (subject : String)
  | batchSummary (sent : Nat) (total : Nat)
deriving DecidableEq

/-- The environment: the injected clock and transport oracles, how far each
has been consumed, and the observable history (requests and log reports). -/
structure World where
  clock : Nat → Int
  transport : Nat → PostOutcome
  clock_idx : Nat
  post_idx : Nat
  trace : List Request
  reports : List Report

/-- One call of the injected `get_now`. -/
def get_now (w : World) : Int × World :=
  (w.clock w.clock_idx, { w with clock_idx := w.clock_idx + 1 })

/-- One `session.post(...)`: consumes the next scripted outcome and records
the request. -/
def post_call (w : World) (url : String) (d : PostData)
    (hdrs : Option SessionHeaders) : PostOutcome × World :=
  let o := w.transport w.post_idx
  (o, { w with
        post_idx := w.post_idx + 1,
        trace := w.trace ++ [⟨url, d, hdrs, o⟩] })

/-- One LOGGER emission. -/
def log_report (w : World) (r : Report) : World :=
  { w with reports := w.reports ++ [r] }

/-- `construct_token_endpoint` (source lines 18-19). -/
def construct_token_endpoint (tenant_id : String) : String :=
  "https://login.microsoftonline.com/" ++ tenant_id ++ "/oauth2/v2.0/token"

/-- `construct_send_email_endpoint` (source lines 21-22). -/
def construct_send_email_endpoint (from_email : String) : String :=
  "https://graph.microsoft.com/v1.0/users/" ++ from_email ++ "/sendMail"

/-- Python's `str.split(sep)` for a one-character separator, on the
character list of the string.  `py_split c s` is never empty. -/
def py_split (c : Char) : List Char → List (List Char)
  | [] => [[]]
  | x :: xs =>
    if x = c then [] :: py_split c xs
    else
      match py_split c xs with
      | [] => [[x]]
      | p :: ps => (x :: p) :: ps

/-- Python's `lst[-1]` on a non-empty list of pieces (the argument is always
a `py_split` result, which is never empty; `[]` is a dead default). -/
def last_piece : List (List Char) → List Char
  | [] => []
  | [p] => p
  | _ :: p :: ps => last_piece (p :: ps)

/-- Python's `lst[0]` on a non-empty list of pieces. -/
def first_piece : List (List Char) → List Char
  | [] => []
  | p :: _ => p

/-- The sender normalization of source line 147:
`from_email.split('<')[-1].split('>')[0]` — everything after the last `<`
(the whole string when there is none), then everything before the first
following `>`. -/
def normalize_from_email (s : String) : String :=
  ⟨first_piece (py_split '>' (last_piece (py_split '<' s.data)))⟩

/-- The backend object: configuration captured by `__init__` plus its two
mutable fields `_access_token` and `_http_session`. -/
structure GraphAPIMailBackend where
  client_id : String
  client_secret : String
  authority : String
  fail_silently : Bool
  timeout : Int
  access_token : Option GraphAPIAccessToken
  http_session : Option HttpSession
deriving DecidableEq

/-- `__init__` with explicit credentials (lines 28-50; the Django-settings
fallbacks for absent arguments are not modelled): both mutable fields start
as `None`. -/
def init_backend (client_id client_secret tenant_id : String)
    (fail_silently : Bool) (timeout : Int) : GraphAPIMailBackend :=
  ⟨client_id, client_secret, construct_token_endpoint tenant_id,
   fail_silently, timeout, none, none⟩

/-- The fixed scope string of the acquisition request (line 91). -/
def graph_default_scope : String := "https://graph.microsoft.com/.default"

/-- `_retrive_access_token` (lines 83-104): POST the client-credentials
grant, `raise_for_status`, read the JSON body, stamp `access_timestamp` with
`get_now()`. -/
def retrive_access_token (b : GraphAPIMailBackend) (w : World) :
    (Except PyError GraphAPIAccessToken) × World :=
  match b.http_session with
  | none => (.error .attributeError, w)
  | some sess =>
    let (o, w1) := post_call w b.authority
      (.tokenRequest "client_credentials" b.client_id b.client_secret none
        (some graph_default_scope))
      sess.headers
    match o with
    | .raiseRequestException => (.error (.requestException false), w1)
    | .response ok _ json =>
      if ok then
        match json with
        | some j =>
          let (now, w2) := get_now w1
          (.ok ⟨j.access_token, j.expires_in, j.refresh_token, now⟩, w2)
        | none => (.error .keyError, w1)
      else (.error (.requestException true), w1)

/-- `_refresh_access_token` (lines 106-127): POST the refresh-token grant
carrying the stored refresh token, `raise_for_status`, build the new token. -/
def refresh_access_token (b : GraphAPIMailBackend) (w : World) :
    (Except PyError GraphAPIAccessToken) × World :=
  match b.access_token with
  | none => (.error .attributeError, w)
  | some tok =>
    match b.http_session with
    | none => (.error .attributeError, w)
    | some sess =>
      let (o, w1) := post_call w b.authority
        (.tokenRequest "refresh_token" b.client_id b.client_secret
          (some tok.refresh_token) none)
        sess.headers
      match o with
      | .raiseRequestException => (.error (.requestException false), w1)
      | .response ok _ json =>
        if ok then
          match json with
          | some j =>
            let (now, w2) := get_now w1
            (.ok ⟨j.access_token, j.expires_in, j.refresh_token, now⟩, w2)
          | none => (.error .keyError, w1)
        else (.error (.requestException true), w1)

/-- `open` (lines 52-81).  Returns `false` unchanged when a session already
exists; otherwise creates the session, tries acquisition, and on success
assigns the session headers (including `Authorization: Bearer {token}`).
Only `RequestException` is caught; when not failing silently it is
re-raised unmodified. -/
def open_conn (b : GraphAPIMailBackend) (w : World) :
    (Except PyError Bool) × GraphAPIMailBackend × World :=
  match b.http_session with
  | some _ => (.ok false, b, w)
  | none =>
    let b1 : GraphAPIMailBackend := { b with http_session := some ⟨none⟩ }
    match retrive_access_token b1 w with
    | (.error e, w1) =>
      match e with
      | .requestException hr =>
        let w2 := log_report w1 .acquisitionFailure
        if b1.fail_silently then (.ok false, b1, w2)
        else (.error (.requestException hr), b1, w2)
      | e2 => (.error e2, b1, w1)
    | (.ok tok, w1) =>
      let b2 : GraphAPIMailBackend :=
        { b1 with
          access_token := some tok,
          http_session := some ⟨some ⟨"text/plain", "Bearer " ++ tok.value⟩⟩ }
      (.ok true, b2, w1)

/-- `close` (lines 129-130): `self._http_session.close()` — dereferences the
session unconditionally, so with no session it is `None.close()`, an
`AttributeError`. -/
def close_conn (b : GraphAPIMailBackend) : Except PyError Unit :=
  match b.http_session with
  | none => .error .attributeError
  | some _ => .ok ()

/-- The expiry check of lines 149-150: read `get_now()`, and when
`access_timestamp + expires_in_seconds <= now` replace `_access_token` with
the refresh result.  Note the session headers are NOT touched here. -/
def refresh_if_expired (b : GraphAPIMailBackend) (w : World) :
    (Except PyError Unit) × GraphAPIMailBackend × World :=
  match b.access_token with
  | none => (.error .attributeError, b, w)
  | some tok =>
    let (now, w1) := get_now w
    if tok.access_timestamp + tok.expires_in_seconds ≤ now then
      match refresh_access_token b w1 with
      | (.error e, w2) => (.error e, b, w2)
      | (.ok tok2, w2) => (.ok (), { b with access_token := some tok2 }, w2)
    else (.ok (), b, w1)

/-- Result of the body of one loop iteration after the skip test:
continue with the next message (`next counted`) or abort the batch. -/
inductive StepOutcome where
  | next (counted : Bool)
  | abort (e : PyError)
deriving DecidableEq

/-- The `try/except` body of one iteration of `send_messages` (lines
148-180) for an already-normalized message `m1`: expiry check (a refresh
failure is a `RequestException`, logged and then swallowed or re-raised per
`fail_silently`), then the send POST with the session's current headers; a
response counts iff `response.ok`, a transport raise is logged and then
swallowed or re-raised per `fail_silently`. -/
def process_message (b : GraphAPIMailBackend) (w : World) (m1 : EmailMessage) :
    StepOutcome × GraphAPIMailBackend × World :=
  match refresh_if_expired b w with
  | (.error e, b1, w1) =>
    match e with
    | .requestException hr =>
      let w2 := log_report w1 (.sendFailure m1.subject)
      if b1.fail_silently then (.next false, b1, w2)
      else (.abort (.requestException hr), b1, w2)
    | e2 => (.abort e2, b1, w1)
  | (.ok _, b1, w1) =>
    match b1.http_session with
    | none => (.abort .attributeError, b1, w1)
    | some sess =>
      let (o, w2) := post_call w1
        (construct_send_email_endpoint m1.from_email) (.sendMail m1)
        sess.headers
      match o with
      | .raiseRequestException =>
        let w3 := log_report w2 (.sendFailure m1.subject)
        if b1.fail_silently then (.next false, b1, w3)
        else (.abort (.requestException false), b1, w3)
      | .response ok _ _ => (.next ok, b1, w2)

/-- The `for` loop of `send_messages` (lines 140-180).  A message with no
recipients is logged and skipped unchanged; otherwise its `from_email` field
is overwritten with the normalized address (line 147, a mutation of the
caller's object) before the iteration body runs.  On abort the error is
returned together with the state reached so far; the already-processed
(mutated) prefix and the untouched remainder of the list are preserved. -/
def send_loop (b : GraphAPIMailBackend) (w : World)
    (msgs : List EmailMessage) (sent : Nat) :
    (Except PyError Nat) × GraphAPIMailBackend × World × List EmailMessage :=
  match msgs with
  | [] => (.ok sent, b, w, [])
  | m :: rest =>
    if recipients m = [] then
      let w1 := log_report w (.skippedNoRecipients m.subject)
      let r := send_loop b w1 rest sent
      (r.1, r.2.1, r.2.2.1, m :: r.2.2.2)
    else
      let m1 : EmailMessage :=
        { m with from_email := normalize_from_email m.from_email }
      match process_message b w m1 with
      | (.next counted, b1, w1) =>
        let r := send_loop b1 w1 rest (if counted then sent + 1 else sent)
        (r.1, r.2.1, r.2.2.1, m1 :: r.2.2.2)
      | (.abort e, b1, w1) => (.error e, b1, w1, m1 :: rest)

/-- `send_messages` (lines 132-186): open (propagating its error when it
raises), return 0 when the open failed silently and no token is held, run
the loop, and on normal completion log the `sent/total` summary and return
the count. -/
def send_messages (b : GraphAPIMailBackend) (w : World)
    (msgs : List EmailMessage) :
    (Except PyError Nat) × GraphAPIMailBackend × World × List EmailMessage :=
  match open_conn b w with
  | (.error e, b1, w1) => (.error e, b1, w1, msgs)
  | (.ok opened, b1, w1) =>
    if !opened && b1.access_token.isNone then (.ok 0, b1, w1, msgs)
    else
      match send_loop b1 w1 msgs 0 with
      | (.ok n, b2, w2, msgs2) =>
        (.ok n, b2, log_report w2 (.batchSummary n msgs.length), msgs2)
      | (.error e, b2, w2, msgs2) => (.error e, b2, w2, msgs2)

/-- A recorded request aimed at the token endpoint. -/
def is_token_request (r : Request) : Bool :=
  match r.data with
  | .tokenRequest _ _ _ _ _ => true
  | .sendMail _ => false

/-- A recorded token request with the refresh grant. -/
def is_refresh_request (r : Request) : Bool :=
  match r.data with
  | .tokenRequest g _ _ _ _ => g == "refresh_token"
  | .sendMail _ => false

/-- A recorded send-mail request. -/
def is_send_mail_request (r : Request) : Bool :=
  match r.data with
  | .tokenRequest _ _ _ _ _ => false
  | .sendMail _ => true

/-- A send-mail request whose response had a success status. -/
def is_success_send (r : Request) : Bool :=
  is_send_mail_request r &&
    match r.outcome with
    | .response ok _ _ => ok
    | .raiseRequestException => false

/-- A scripted outcome on which `_retrive_access_token` fails: a transport
raise or a non-success status. -/
def is_failure_outcome (o : PostOutcome) : Bool :=
  match o with
  | .raiseRequestException => true
  | .response ok _ _ => !ok

/-- The `RequestException` that acquisition raises on a failure outcome:
a bare transport exception, or the `HTTPError` from `raise_for_status`. -/
def acq_failure_error (o : PostOutcome) : PyError :=
  match o with
  | .raiseRequestException => .requestException false
  | .response _ _ _ => .requestException true

/-- The per-message effect of the loop on the caller's message objects:
untouched when skipped for lack of recipients, otherwise `from_email`
overwritten with the normalized address. -/
def mutate_message (m : EmailMessage) : EmailMessage :=
  if recipients m = [] then m
  else { m with from_email := normalize_from_email m.from_email }

/-- The spec's `"Display Name <addr>"` form, as a Boolean test: the string
has both an opening `<` and a closing `>`. -/
def is_name_addr_form (s : String) : Bool :=
  s.data.contains '<' && s.data.contains '>'

/-! ### Concrete scenario constants used to evaluate the code on the
inputs named by the specification -/

/-- A well-formed message with one To recipient and a bare sender. -/
def base_msg : EmailMessage :=
  ⟨"Some email subject", "Some email body", "from_me@example.com",
   ["recipient1@example.com"], [], []⟩

/-- Transport script for the stale-header run: acquisition returns token
`tok0` with `expires_in = 0`, the refresh returns a *different* token
`tok1`, the send succeeds. -/
def c1_transport : Nat → PostOutcome := fun i =>
  if i = 0 then .response true 200 (some ⟨"tok0", 0, "r0"⟩)
  else if i = 1 then .response true 200 (some ⟨"tok1", 0, "r1"⟩)
  else .response true 202 none

def c1_b0 : GraphAPIMailBackend := init_backend "cid" "cs" "tid" false 5

def c1_w0 : World := ⟨fun _ => 0, c1_transport, 0, 0, [], []⟩

/-- Token JSON with the spec example lifetime `expires_in = 3736`. -/
def c2_tokjson : TokenResponseJson := ⟨"abcd123", 3736, "refresh-abcd123"⟩

/-- Transport script for the expiry example: POST 0 is the acquisition and
POST 4 the refresh (both succeed); every other POST is a 202 send. -/
def c2_transport : Nat → PostOutcome := fun i =>
  if i = 0 ∨ i = 4 then .response true 200 (some c2_tokjson)
  else .response true 202 none

/-- Clock for the expiry example: acquisition at T0, then per-message
checks at T0, T0+1245, T0+1868 and T0+3736 (where 1245 = 3736 / 3 and
1868 = 3736 / 2), and the refresh timestamp also at T0+3736. -/
def c2_clock : Nat → Int := fun i =>
  match i with
  | 0 => 1027339200
  | 1 => 1027339200
  | 2 => 1027339200 + 1245
  | 3 => 1027339200 + 1868
  | _ => 1027339200 + 3736

def c2_b0 : GraphAPIMailBackend :=
  init_backend "123-456-789" "asdf123" "abcd-efgh-hijk" false 5

def c2_w0 : World := ⟨c2_clock, c2_transport, 0, 0, [], []⟩

/-- Transport script for the soft-failure batch: acquisition ok, the first
send answers 500 (non-success status), every later send answers 202. -/
def c4_transport : Nat → PostOutcome := fun i =>
  if i = 0 then .response true 200 (some c2_tokjson)
  else if i = 1 then .response false 500 none
  else .response true 202 none

def c4_b0 : GraphAPIMailBackend :=
  init_backend "123-456-789" "asdf123" "tenant" false 5

def c4_w0 : World := ⟨fun _ => 0, c4_transport, 0, 0, [], []⟩

/-- The token held after the acquisition of the soft-failure batch. -/
def c4_tok : GraphAPIAccessToken := ⟨"abcd123", 3736, "refresh-abcd123", 0⟩

/-- The session headers assigned by `open` in that run. -/
def c4_sess : HttpSession := ⟨some ⟨"text/plain", "Bearer abcd123"⟩⟩

/-- The backend state right after `open` succeeded in that run. -/
def c4_b1 : GraphAPIMailBackend :=
  { c4_b0 with access_token := some c4_tok, http_session := some c4_sess }

/-- The acquisition request recorded in that run. -/
def c4_acq_req : Request :=
  ⟨c4_b0.authority,
   .tokenRequest "client_credentials" "123-456-789" "asdf123" none
     (some graph_default_scope), none,
   .response true 200 (some c2_tokjson)⟩

/-- The soft-failed first send of that run. -/
def c4_fail_req : Request :=
  ⟨construct_send_email_endpoint "from_me@example.com", .sendMail base_msg,
   c4_sess.headers, .response false 500 none⟩

/-- A successful send of that run. -/
def c4_ok_req : Request :=
  ⟨construct_send_email_endpoint "from_me@example.com", .sendMail base_msg,
   c4_sess.headers, .response true 202 none⟩

def c7_mA : EmailMessage :=
  ⟨"A", "body", "from_me@example.com", ["r@example.com"], [], []⟩

def c7_mB : EmailMessage :=
  ⟨"B", "body", "from_me@example.com", ["r@example.com"], [], []⟩

def c7_mC : EmailMessage :=
  ⟨"C", "body", "from_me@example.com", ["r@example.com"], [], []⟩

/-- Transport for the mid-batch refresh failure: acquisition returns a
token with `expires_in = 1`, the first send succeeds, and the refresh
triggered before the second send answers 500. -/
def c7_transport : Nat → PostOutcome := fun i =>
  if i = 0 then .response true 200 (some ⟨"tok", 1, "rt"⟩)
  else if i = 1 then .response true 202 none
  else .response false 500 none

/-- Clock for that run: the token is live for the first message's check and
stale for the second one's. -/
def c7_clock : Nat → Int := fun i =>
  match i with
  | 0 => 0
  | 1 => 0
  | _ => 1

def c7_b0 : GraphAPIMailBackend := init_backend "cid" "cs" "tid" false 5

def c7_w0 : World := ⟨c7_clock, c7_transport, 0, 0, [], []⟩

/-- Transport for the mid-batch transport failure: acquisition ok with a
long-lived token, first send ok, second send raises `RequestException`. -/
def c7t_transport : Nat → PostOutcome := fun i =>
  if i = 0 then .response true 200 (some ⟨"tok", 3736, "rt"⟩)
  else if i = 1 then .response true 202 none
  else .raiseRequestException

def c7t_w0 : World := ⟨fun _ => 0, c7t_transport, 0, 0, [], []⟩

/-- A message whose sender is in display-name form. -/
def c8_msg : EmailMessage :=
  ⟨"C8 subject", "body", "Fred <a@example.com>", ["r@example.com"], [], []⟩

/-- Transport where acquisition and every send succeed. -/
def c8_transport : Nat → PostOutcome := fun i =>
  if i = 0 then .response true 200 (some c2_tokjson)
  else .response true 202 none

def c8_w0 : World := ⟨fun _ => 0, c8_transport, 0, 0, [], []⟩

/-- Transport whose every response is a 500, so acquisition always fails. -/
def c9_transport : Nat → PostOutcome := fun _ => .response false 500 none

def c9_b0 : GraphAPIMailBackend := init_backend "cid" "cs" "tid" true 5

def c9_w0 : World := ⟨fun _ => 0, c9_transport, 0, 0, [], []⟩

deriving instance DecidableEq for Except

/-! ### Lemmas about the sender normalization -/

theorem py_split_ne_nil (c : Char) (s : List Char) : py_split c s ≠ [] := by
  induction s with
  | nil => simp [py_split]
  | cons x xs ih =>
    rw [py_split]
    by_cases hx : x = c
    · simp [hx]
    · rw [if_neg hx]
      cases h : py_split c xs with
      | nil => simp
      | cons p ps => simp

theorem py_split_no_sep {c : Char} {s : List Char} (h : c ∉ s) :
    py_split c s = [s] := by
  induction s with
  | nil => rfl
  | cons x xs ih =>
    have hx : ¬ x = c := fun hxc => h (hxc ▸ List.mem_cons_self x xs)
    have hxs : c ∉ xs := fun hc => h (List.mem_cons_of_mem x hc)
    rw [py_split, if_neg hx, ih hxs]

theorem py_split_append (c : Char) (xs ys : List Char) :
    py_split c (xs ++ c :: ys) = py_split c xs ++ py_split c ys := by
  induction xs with
  | nil => simp [py_split]
  | cons x xs ih =>
    by_cases hx : x = c
    · subst hx
      simp [py_split, ih]
    · cases h : py_split c xs with
      | nil => exact absurd h (py_split_ne_nil c xs)
      | cons p ps => simp [py_split, hx, ih, h]

theorem last_piece_append (l1 l2 : List (List Char)) (h : l2 ≠ []) :
    last_piece (l1 ++ l2) = last_piece l2 := by
  induction l1 with
  | nil => rfl
  | cons a t ih =>
    have h2 : t ++ l2 ≠ [] := by
      intro habs
      rcases List.append_eq_nil.mp habs with ⟨_, h22⟩
      exact h h22
    cases htl : t ++ l2 with
    | nil => exact absurd htl h2
    | cons p ps =>
      have : last_piece ((a :: t) ++ l2) = last_piece (t ++ l2) := by
        show last_piece (a :: (t ++ l2)) = last_piece (t ++ l2)
        rw [htl]
        simp [last_piece]
      rw [this, ih]

theorem normalize_no_brackets (s : String)
    (h1 : '<' ∉ s.data) (h2 : '>' ∉ s.data) :
    normalize_from_email s = s := by
  unfold normalize_from_email
  rw [py_split_no_sep h1]
  show String.mk (first_piece (py_split '>' s.data)) = s
  rw [py_split_no_sep h2]
  rfl

theorem normalize_name_addr (name addr : String)
    (h1 : '<' ∉ addr.data) (h2 : '>' ∉ addr.data) :
    normalize_from_email (name ++ "<" ++ addr ++ ">") = addr := by
  have hdata : (name ++ "<" ++ addr ++ ">").data
      = name.data ++ '<' :: (addr.data ++ '>' :: []) := by
    rw [String.data_append, String.data_append, String.data_append]
    simp
  unfold normalize_from_email
  rw [hdata, py_split_append]
  have haddr : '<' ∉ addr.data ++ '>' :: [] := by
    intro hmem
    rcases List.mem_append.mp hmem with hmem1 | hmem2
    · exact h1 hmem1
    · simp at hmem2
  rw [py_split_no_sep haddr,
    last_piece_append _ _ (by simp)]
  show String.mk (first_piece (py_split '>' (addr.data ++ '>' :: []))) = addr
  rw [py_split_append, py_split_no_sep h2]
  rfl

/-! ### Trace bookkeeping lemmas -/

theorem filter_success_of_no_send {t : List Request}
    (h : t.filter is_send_mail_request = []) :
    t.filter is_success_send = [] := by
  rw [List.filter_eq_nil_iff] at h
  rw [List.filter_eq_nil_iff]
  intro a ha hs
  have hsm : is_send_mail_request a = true := by
    unfold is_success_send at hs
    exact ((Bool.and_eq_true _ _).mp hs).1
  exact h a ha hsm

theorem retrive_access_token_trace (b : GraphAPIMailBackend) (w : World) :
    ∃ t, (retrive_access_token b w).2.trace = w.trace ++ t ∧
      t.filter is_send_mail_request = [] := by
  cases hs : b.http_session with
  | none =>
    refine ⟨[], ?_, rfl⟩
    simp [retrive_access_token, hs]
  | some sess =>
    refine ⟨[⟨b.authority, .tokenRequest "client_credentials" b.client_id
      b.client_secret none (some graph_default_scope), sess.headers,
      w.transport w.post_idx⟩], ?_, by simp [is_send_mail_request]⟩
    simp only [retrive_access_token, hs, post_call, get_now]
    cases ho : w.transport w.post_idx with
    | raiseRequestException => simp [ho]
    | response ok sc json => cases ok <;> cases json <;> simp [ho]

theorem refresh_access_token_run (b : GraphAPIMailBackend) (w : World)
    (tok : GraphAPIAccessToken) (sess : HttpSession)
    (htok : b.access_token = some tok) (hsess : b.http_session = some sess) :
    (refresh_access_token b w).2.trace
      = w.trace ++ [⟨b.authority,
          .tokenRequest "refresh_token" b.client_id b.client_secret
            (some tok.refresh_token) none, sess.headers,
          w.transport w.post_idx⟩]
    ∧ (refresh_access_token b w).2.post_idx = w.post_idx + 1 := by
  simp only [refresh_access_token, htok, hsess, post_call, get_now]
  cases ho : w.transport w.post_idx with
  | raiseRequestException => simp [ho]
  | response ok sc json => cases ok <;> cases json <;> simp [ho]

theorem refresh_access_token_trace (b : GraphAPIMailBackend) (w : World) :
    ∃ t, (refresh_access_token b w).2.trace = w.trace ++ t ∧
      t.filter is_send_mail_request = [] := by
  cases htok : b.access_token with
  | none =>
    refine ⟨[], ?_, rfl⟩
    simp [refresh_access_token, htok]
  | some tok =>
    cases hs : b.http_session with
    | none =>
      refine ⟨[], ?_, rfl⟩
      simp [refresh_access_token, htok, hs]
    | some sess =>
      exact ⟨_, (refresh_access_token_run b w tok sess htok hs).1,
        by simp [is_send_mail_request]⟩

theorem refresh_if_expired_live (b : GraphAPIMailBackend) (w : World)
    (tok : GraphAPIAccessToken) (htok : b.access_token = some tok)
    (hlive : w.clock w.clock_idx
      < tok.access_timestamp + tok.expires_in_seconds) :
    refresh_if_expired b w
      = (.ok (), b, { w with clock_idx := w.clock_idx + 1 }) := by
  simp only [refresh_if_expired, htok, get_now]
  rw [if_neg (not_le.mpr hlive)]

theorem refresh_if_expired_stale_world (b : GraphAPIMailBackend) (w : World)
    (tok : GraphAPIAccessToken) (htok : b.access_token = some tok)
    (hexp : tok.access_timestamp + tok.expires_in_seconds
      ≤ w.clock w.clock_idx) :
    (refresh_if_expired b w).2.2
      = (refresh_access_token b { w with clock_idx := w.clock_idx + 1 }).2 := by
  simp only [refresh_if_expired, htok, get_now]
  rw [if_pos hexp]
  rcases h : refresh_access_token b { w with clock_idx := w.clock_idx + 1 }
    with ⟨r, w2⟩
  cases r <;> simp [h]

theorem refresh_if_expired_trace (b : GraphAPIMailBackend) (w : World) :
    ∃ t, (refresh_if_expired b w).2.2.trace = w.trace ++ t ∧
      t.filter is_send_mail_request = [] := by
  cases htok : b.access_token with
  | none =>
    refine ⟨[], ?_, rfl⟩
    simp [refresh_if_expired, htok]
  | some tok =>
    by_cases hexp : tok.access_timestamp + tok.expires_in_seconds
      ≤ w.clock w.clock_idx
    · rw [refresh_if_expired_stale_world b w tok htok hexp]
      exact refresh_access_token_trace b { w with clock_idx := w.clock_idx + 1 }
    · rw [refresh_if_expired_live b w tok htok (not_le.mp hexp)]
      exact ⟨[], by simp, rfl⟩

theorem process_message_trace (b : GraphAPIMailBackend) (w : World)
    (m1 : EmailMessage) (s : StepOutcome) (b1 : GraphAPIMailBackend)
    (w1 : World) (h : process_message b w m1 = (s, b1, w1)) :
    ∃ t, w1.trace = w.trace ++ t := by
  obtain ⟨t0, ht0, hf0⟩ := refresh_if_expired_trace b w
  unfold process_message at h
  rcases hrw : refresh_if_expired b w with ⟨r, b2, w2⟩
  rw [hrw] at h ht0
  replace ht0 : w2.trace = w.trace ++ t0 := ht0
  cases r with
  | error e =>
    cases e with
    | requestException hresp =>
      by_cases hfs : b2.fail_silently <;> simp [hfs] at h <;>
        exact ⟨t0, by rw [← h.2.2]; simpa [log_report] using ht0⟩
    | attributeError =>
      simp at h
      exact ⟨t0, by rw [← h.2.2]; exact ht0⟩
    | keyError =>
      simp at h
      exact ⟨t0, by rw [← h.2.2]; exact ht0⟩
  | ok u =>
    rcases hsess : b2.http_session with _ | sess
    · simp [hsess] at h
      exact ⟨t0, by rw [← h.2.2]; exact ht0⟩
    · simp only [hsess, post_call] at h
      rcases ho : w2.transport w2.post_idx with ⟨ok2, sc, json⟩ | _ <;>
        rw [ho] at h
      · simp at h
        refine ⟨t0 ++ [⟨construct_send_email_endpoint m1.from_email,
          .sendMail m1, sess.headers, .response ok2 sc json⟩], ?_⟩
        rw [← h.2.2]
        simp [ht0]
      · by_cases hfs : b2.fail_silently <;> simp [hfs] at h <;>
        · refine ⟨t0 ++ [⟨construct_send_email_endpoint m1.from_email,
            .sendMail m1, sess.headers, .raiseRequestException⟩], ?_⟩
          rw [← h.2.2]
          simp [log_report, ht0]

theorem process_message_next_count (b : GraphAPIMailBackend) (w : World)
    (m1 : EmailMessage) (c : Bool) (b1 : GraphAPIMailBackend) (w1 : World)
    (h : process_message b w m1 = (.next c, b1, w1)) :
    ∃ t, w1.trace = w.trace ++ t ∧
      (t.filter is_success_send).length = (if c then 1 else 0) := by
  obtain ⟨t0, ht0, hf0⟩ := refresh_if_expired_trace b w
  have hsucc0 : t0.filter is_success_send = [] := filter_success_of_no_send hf0
  unfold process_message at h
  rcases hrw : refresh_if_expired b w with ⟨r, b2, w2⟩
  rw [hrw] at h ht0
  replace ht0 : w2.trace = w.trace ++ t0 := ht0
  cases r with
  | error e =>
    cases e with
    | requestException hresp =>
      by_cases hfs : b2.fail_silently <;> simp [hfs] at h
      refine ⟨t0, ?_, ?_⟩
      · rw [← h.2.2]
        simpa [log_report] using ht0
      · rw [hsucc0, h.1]
        rfl
    | attributeError => simp at h
    | keyError => simp at h
  | ok u =>
    rcases hsess : b2.http_session with _ | sess
    · simp [hsess] at h
    · simp only [hsess, post_call] at h
      rcases ho : w2.transport w2.post_idx with ⟨ok2, sc, json⟩ | _ <;>
        rw [ho] at h
      · simp at h
        refine ⟨t0 ++ [⟨construct_send_email_endpoint m1.from_email,
          .sendMail m1, sess.headers, .response ok2 sc json⟩], ?_, ?_⟩
        · rw [← h.2.2]
          simp [ht0]
        · rw [List.filter_append, hsucc0, ← h.1]
          cases ok2 <;> simp [is_success_send, is_send_mail_request]

      · by_cases hfs : b2.fail_silently <;> simp [hfs] at h
        refine ⟨t0 ++ [⟨construct_send_email_endpoint m1.from_email,
          .sendMail m1, sess.headers, .raiseRequestException⟩], ?_, ?_⟩
        · rw [← h.2.2]
          simp [log_report, ht0]
        · rw [List.filter_append, hsucc0, h.1]
          simp [is_success_send]

theorem send_loop_skip (b : GraphAPIMailBackend) (w : World)
    (m : EmailMessage) (rest : List EmailMessage) (sent : Nat)
    (hrec : recipients m = []) :
    send_loop b w (m :: rest) sent
      = (let r := send_loop b
            (log_report w (.skippedNoRecipients m.subject)) rest sent
         (r.1, r.2.1, r.2.2.1, m :: r.2.2.2)) := by
  simp [send_loop, hrec]

theorem send_loop_step (b : GraphAPIMailBackend) (w : World)
    (m : EmailMessage) (rest : List EmailMessage) (sent : Nat)
    (hrec : ¬ recipients m = []) :
    send_loop b w (m :: rest) sent
      = (let m1 : EmailMessage :=
           { m with from_email := normalize_from_email m.from_email }
         match process_message b w m1 with
         | (.next counted, b1, w1) =>
           let r := send_loop b1 w1 rest (if counted then sent + 1 else sent)
           (r.1, r.2.1, r.2.2.1, m1 :: r.2.2.2)
         | (.abort e, b1, w1) => (.error e, b1, w1, m1 :: rest)) := by
  simp [send_loop, hrec]

theorem send_loop_trace_mono (msgs : List EmailMessage) :
    ∀ b w sent, ∃ t,
      (send_loop b w msgs sent).2.2.1.trace = w.trace ++ t := by
  induction msgs with
  | nil => exact fun b w sent => ⟨[], by simp [send_loop]⟩
  | cons m rest ih =>
    intro b w sent
    by_cases hrec : recipients m = []
    · obtain ⟨t, ht⟩ :=
        ih b (log_report w (.skippedNoRecipients m.subject)) sent
      rw [send_loop_skip b w m rest sent hrec]
      exact ⟨t, by simpa [log_report] using ht⟩
    · rw [send_loop_step b w m rest sent hrec]
      rcases hpm : process_message b w
          { m with from_email := normalize_from_email m.from_email }
        with ⟨s, b1, w1⟩
      obtain ⟨t1, ht1⟩ := process_message_trace _ _ _ _ _ _ hpm
      cases s with
      | next c =>
        obtain ⟨t2, ht2⟩ := ih b1 w1 (if c then sent + 1 else sent)
        exact ⟨t1 ++ t2, by simp [hpm, ht2, ht1]⟩
      | abort e => exact ⟨t1, by simp [hpm, ht1]⟩

theorem send_loop_ok_count (msgs : List EmailMessage) :
    ∀ b w sent n b2 w2 msgs2,
      send_loop b w msgs sent = (.ok n, b2, w2, msgs2) →
      ∃ t, w2.trace = w.trace ++ t ∧
        n = sent + (t.filter is_success_send).length := by
  induction msgs with
  | nil =>
    intro b w sent n b2 w2 msgs2 h
    simp [send_loop] at h
    exact ⟨[], by simp [← h.2.2.1], by simp [← h.1]⟩
  | cons m rest ih =>
    intro b w sent n b2 w2 msgs2 h
    by_cases hrec : recipients m = []
    · rw [send_loop_skip b w m rest sent hrec] at h
      rcases hr : send_loop b
          (log_report w (.skippedNoRecipients m.subject)) rest sent
        with ⟨r1, rb, rw2, rmsgs⟩
      rw [hr] at h
      simp at h
      obtain ⟨h1, h2, h3, h4⟩ := h
      obtain ⟨t, ht, hn⟩ := ih _ _ _ _ _ _ _ (by rw [hr, h1])
      exact ⟨t, by rw [← h3]; simpa [log_report] using ht, hn⟩
    · rw [send_loop_step b w m rest sent hrec] at h
      dsimp only at h
      rcases hpm : process_message b w
          { m with from_email := normalize_from_email m.from_email }
        with ⟨s, b1, w1⟩
      rw [hpm] at h
      cases s with
      | abort e => simp at h
      | next c =>
        rcases hr : send_loop b1 w1 rest (if c then sent + 1 else sent)
          with ⟨r1, rb, rw2, rmsgs⟩
        simp only [hr] at h
        simp at h
        obtain ⟨h1, h2, h3, h4⟩ := h
        obtain ⟨t1, ht1, hc1⟩ := process_message_next_count _ _ _ _ _ _ hpm
        obtain ⟨t2, ht2, hn2⟩ := ih _ _ _ _ _ _ _ (by rw [hr, h1])
        refine ⟨t1 ++ t2, ?_, ?_⟩
        · rw [← h3, ht2, ht1, List.append_assoc]
        · rw [List.filter_append, List.length_append, hc1]
          cases c <;> simp at hn2 ⊢ <;> omega

theorem send_loop_ok_msgs (msgs : List EmailMessage) :
    ∀ b w sent n b2 w2 msgs2,
      send_loop b w msgs sent = (.ok n, b2, w2, msgs2) →
      msgs2 = msgs.map mutate_message := by
  induction msgs with
  | nil =>
    intro b w sent n b2 w2 msgs2 h
    simp [send_loop] at h
    simp [h.2.2.2]
  | cons m rest ih =>
    intro b w sent n b2 w2 msgs2 h
    by_cases hrec : recipients m = []
    · rw [send_loop_skip b w m rest sent hrec] at h
      rcases hr : send_loop b
          (log_report w (.skippedNoRecipients m.subject)) rest sent
        with ⟨r1, rb, rw2, rmsgs⟩
      rw [hr] at h
      simp at h
      obtain ⟨h1, h2, h3, h4⟩ := h
      have := ih _ _ _ _ _ _ _ (by rw [hr, h1])
      rw [← h4, this, List.map_cons, mutate_message, if_pos hrec]
    · rw [send_loop_step b w m rest sent hrec] at h
      dsimp only at h
      rcases hpm : process_message b w
          { m with from_email := normalize_from_email m.from_email }
        with ⟨s, b1, w1⟩
      rw [hpm] at h
      cases s with
      | abort e => simp at h
      | next c =>
        rcases hr : send_loop b1 w1 rest (if c then sent + 1 else sent)
          with ⟨r1, rb, rw2, rmsgs⟩
        simp only [hr] at h
        simp at h
        obtain ⟨h1, h2, h3, h4⟩ := h
        have := ih _ _ _ _ _ _ _ (by rw [hr, h1])
        rw [← h4, this, List.map_cons, mutate_message, if_neg hrec]

theorem open_conn_trace (b : GraphAPIMailBackend) (w : World) :
    ∃ t, (open_conn b w).2.2.trace = w.trace ++ t ∧
      t.filter is_send_mail_request = [] := by
  cases hs : b.http_session with
  | some sess => exact ⟨[], by simp [open_conn, hs], rfl⟩
  | none =>
    obtain ⟨t, ht, hf⟩ :=
      retrive_access_token_trace { b with http_session := some ⟨none⟩ } w
    refine ⟨t, ?_, hf⟩
    simp only [open_conn, hs]
    rcases hr : retrive_access_token { b with http_session := some ⟨none⟩ } w
      with ⟨r, w1⟩
    replace ht : w1.trace = w.trace ++ t := by rw [hr] at ht; exact ht
    cases r with
    | error e =>
      cases e with
      | requestException hresp =>
        by_cases hfs : b.fail_silently <;> simp [hfs, log_report, ht]
      | attributeError => simp [ht]
      | keyError => simp [ht]
    | ok tok => simp [ht]

theorem send_messages_trace_mono (b : GraphAPIMailBackend) (w : World)
    (msgs : List EmailMessage) :
    ∃ t, (send_messages b w msgs).2.2.1.trace = w.trace ++ t := by
  obtain ⟨t0, ht0, _⟩ := open_conn_trace b w
  rcases ho : open_conn b w with ⟨r, b1, w1⟩
  replace ht0 : w1.trace = w.trace ++ t0 := by rw [ho] at ht0; exact ht0
  cases r with
  | error e => exact ⟨t0, by simp [send_messages, ho, ht0]⟩
  | ok opened =>
    by_cases hc : (!opened && b1.access_token.isNone) = true
    · exact ⟨t0, by simp [send_messages, ho, hc, ht0]⟩
    · rcases hl : send_loop b1 w1 msgs 0 with ⟨r2, b2, w2, msgs2⟩
      obtain ⟨t1, ht1⟩ := send_loop_trace_mono msgs b1 w1 0
      replace ht1 : w2.trace = w1.trace ++ t1 := by rw [hl] at ht1; exact ht1
      cases r2 with
      | ok n =>
        exact ⟨t0 ++ t1,
          by simp [send_messages, ho, hc, hl, log_report, ht1, ht0]⟩
      | error e =>
        exact ⟨t0 ++ t1, by simp [send_messages, ho, hc, hl, ht1, ht0]⟩

theorem send_messages_ok_count (b : GraphAPIMailBackend) (w : World)
    (msgs : List EmailMessage) (n : Nat) (b2 : GraphAPIMailBackend)
    (w2 : World) (msgs2 : List EmailMessage)
    (h : send_messages b w msgs = (.ok n, b2, w2, msgs2)) :
    ∃ t, w2.trace = w.trace ++ t ∧
      n = (t.filter is_success_send).length := by
  obtain ⟨t0, ht0, hf0⟩ := open_conn_trace b w
  have hs0 : t0.filter is_success_send = [] := filter_success_of_no_send hf0
  unfold send_messages at h
  rcases ho : open_conn b w with ⟨r, b1, w1⟩
  rw [ho] at h
  replace ht0 : w1.trace = w.trace ++ t0 := by rw [ho] at ht0; exact ht0
  cases r with
  | error e => simp at h
  | ok opened =>
    by_cases hc : (!opened && b1.access_token.isNone) = true
    · simp [hc] at h
      obtain ⟨h1, h2, h3, h4⟩ := h
      refine ⟨t0, by rw [← h3]; exact ht0, ?_⟩
      rw [← h1, hs0]
      rfl
    · simp only [hc, if_false, Bool.false_eq_true, if_neg] at h
      rcases hl : send_loop b1 w1 msgs 0 with ⟨r2, b3, w3, msgs3⟩
      rw [hl] at h
      cases r2 with
      | error e => simp at h
      | ok k =>
        simp at h
        obtain ⟨h1, h2, h3, h4⟩ := h
        obtain ⟨t1, ht1, hn1⟩ := send_loop_ok_count msgs b1 w1 0 k b3 w3 msgs3 hl
        refine ⟨t0 ++ t1, ?_, ?_⟩
        · rw [← h3]
          simp [log_report, ht1, ht0]
        · rw [List.filter_append, List.length_append, hs0, ← h1]
          simpa using hn1

/-! ### The parametric soft-failure batch -/

theorem filter_replicate_of_pos {p : Request → Bool} {a : Request}
    (h : p a = true) (k : Nat) :
    (List.replicate k a).filter p = List.replicate k a := by
  induction k with
  | zero => rfl
  | succ k ih => simp [List.replicate_succ, List.filter_cons, h, ih]

theorem filter_replicate_of_neg {p : Request → Bool} {a : Request}
    (h : p a = false) (k : Nat) :
    (List.replicate k a).filter p = [] := by
  induction k with
  | zero => rfl
  | succ k ih => simp [List.replicate_succ, List.filter_cons, h, ih]

theorem c4_transport_of_ge_two {i : Nat} (h : 2 ≤ i) :
    c4_transport i = .response true 202 none := by
  unfold c4_transport
  rw [if_neg (by omega), if_neg (by omega)]

theorem c4_step (ci p : Nat) (tr : List Request) (rp : List Report)
    (sent : Nat) (rest : List EmailMessage) (hp : 2 ≤ p) :
    send_loop c4_b1 ⟨fun _ => 0, c4_transport, ci, p, tr, rp⟩
        (base_msg :: rest) sent
      = (let r := send_loop c4_b1
           ⟨fun _ => 0, c4_transport, ci + 1, p + 1, tr ++ [c4_ok_req], rp⟩
           rest (sent + 1)
         (r.1, r.2.1, r.2.2.1, base_msg :: r.2.2.2)) := by
  have hpm : process_message c4_b1
      ⟨fun _ => 0, c4_transport, ci, p, tr, rp⟩ base_msg
      = (.next true, c4_b1,
         ⟨fun _ => 0, c4_transport, ci + 1, p + 1, tr ++ [c4_ok_req], rp⟩) := by
    unfold process_message
    rw [refresh_if_expired_live c4_b1 _ c4_tok rfl
      (show (0 : Int) < c4_tok.access_timestamp + c4_tok.expires_in_seconds
        by decide)]
    dsimp only
    rw [show c4_b1.http_session = some c4_sess from rfl]
    dsimp only [post_call]
    rw [c4_transport_of_ge_two hp]
    simp [c4_ok_req, base_msg]
  rw [send_loop_step c4_b1 _ base_msg rest sent (by decide)]
  dsimp only
  have hm : ({ subject := base_msg.subject, body := base_msg.body,
               from_email := normalize_from_email base_msg.from_email,
               to_addrs := base_msg.to_addrs, cc := base_msg.cc,
               bcc := base_msg.bcc } : EmailMessage) = base_msg := by decide
  rw [hm, hpm]
  simp

theorem c4_loop (k : Nat) :
    ∀ ci p tr rp sent, 2 ≤ p →
      send_loop c4_b1 ⟨fun _ => 0, c4_transport, ci, p, tr, rp⟩
          (List.replicate k base_msg) sent
        = (.ok (sent + k), c4_b1,
           ⟨fun _ => 0, c4_transport, ci + k, p + k,
            tr ++ List.replicate k c4_ok_req, rp⟩,
           List.replicate k base_msg) := by
  induction k with
  | zero =>
    intro ci p tr rp sent hp
    simp [send_loop]
  | succ k ih =>
    intro ci p tr rp sent hp
    rw [List.replicate_succ,
      c4_step ci p tr rp sent (List.replicate k base_msg) hp]
    dsimp only
    rw [ih (ci + 1) (p + 1) (tr ++ [c4_ok_req]) rp (sent + 1) (by omega)]
    have h1 : sent + 1 + k = sent + (k + 1) := by omega
    have h2 : ci + 1 + k = ci + (k + 1) := by omega
    have h3 : p + 1 + k = p + (k + 1) := by omega
    have h4 : (tr ++ [c4_ok_req]) ++ List.replicate k c4_ok_req
        = tr ++ List.replicate (k + 1) c4_ok_req := by
      simp [List.replicate_succ]
    rw [h1, h2, h3, h4]

/-! ### Claim theorems -/

/-- C6, counterexample: the sender string "x>y" is not in `"Name <addr>"`
form (it has no `<` at all), yet the normalization of line 147 does not pass
it through unchanged — it truncates it to "x".  So "for every sender string
not in that form the value passes through unchanged" is false on the code. -/
theorem claim_C6_counterexample :
    is_name_addr_form "x>y" = false
      ∧ normalize_from_email "x>y" ≠ "x>y"
      ∧ normalize_from_email "x>y" = "x" := by
  refine ⟨by decide, by decide, by decide⟩

/-- C6, amended: the normalization keeps the substring after the last `<`
and before the first following `>`.  Hence it extracts the bare address from
`name ++ "<" ++ addr ++ ">"` whenever the address itself has no angle
brackets (in particular `"Fred <a@example.com>"` goes to the endpoint for
`a@example.com`), and a sender string containing neither `<` nor `>` passes
through unchanged; strings outside that form that do contain a bracket may
be altered. -/
theorem claim_C6_normalization :
    (∀ name addr : String, '<' ∉ addr.data → '>' ∉ addr.data →
      normalize_from_email (name ++ "<" ++ addr ++ ">") = addr)
    ∧ (∀ s : String, '<' ∉ s.data → '>' ∉ s.data →
      normalize_from_email s = s)
    ∧ normalize_from_email "Fred <a@example.com>" = "a@example.com" :=
  ⟨fun name addr h1 h2 => normalize_name_addr name addr h1 h2,
   fun s h1 h2 => normalize_no_brackets s h1 h2,
   by decide⟩

/-- Witness for C6: the amended statement evaluated at
`"Fred " ++ "<" ++ "a@example.com" ++ ">"` and at a bracket-free string. -/
theorem claim_C6_normalization_witness :
    normalize_from_email ("Fred " ++ "<" ++ "a@example.com" ++ ">")
        = "a@example.com"
    ∧ normalize_from_email "plain@example.com" = "plain@example.com" :=
  ⟨claim_C6_normalization.1 "Fred " "a@example.com" (by decide) (by decide),
   claim_C6_normalization.2.1 "plain@example.com" (by decide) (by decide)⟩

/-- C5: a message whose To, Cc and Bcc are all empty is skipped by the loop:
no POST is issued for it (the world changes only by the skip report, which
carries the subject), it contributes nothing to the count, it is left
unmutated, and the loop continues with the remaining messages — for any
backend, in particular regardless of the fail-silently flag. -/
theorem claim_C5_skip_no_recipients (b : GraphAPIMailBackend) (w : World)
    (m : EmailMessage) (rest : List EmailMessage) (sent : Nat)
    (h1 : m.to_addrs = []) (h2 : m.cc = []) (h3 : m.bcc = []) :
    send_loop b w (m :: rest) sent
      = (let r := send_loop b
            (log_report w (.skippedNoRecipients m.subject)) rest sent
         (r.1, r.2.1, r.2.2.1, m :: r.2.2.2)) :=
  send_loop_skip b w m rest sent (by simp [recipients, h1, h2, h3])

/-- Witness for C5: a concrete recipient-less message is skipped with its
skip report and the loop terminates with count 0. -/
theorem claim_C5_witness :
    send_loop c7_b0 c7_w0
        [(⟨"empty", "body", "x@example.com", [], [], []⟩ : EmailMessage)] 0
      = (let r := send_loop c7_b0
            (log_report c7_w0 (.skippedNoRecipients "empty")) [] 0
         (r.1, r.2.1, r.2.2.1,
          (⟨"empty", "body", "x@example.com", [], [], []⟩ : EmailMessage)
            :: r.2.2.2)) :=
  claim_C5_skip_no_recipients c7_b0 c7_w0 _ [] 0 rfl rfl rfl

theorem open_conn_creates_session (b : GraphAPIMailBackend) (w : World) :
    ∃ s, ((open_conn b w).2.1).http_session = some s := by
  cases hs : b.http_session with
  | some sess => exact ⟨sess, by simp [open_conn, hs]⟩
  | none =>
    simp only [open_conn, hs]
    rcases hr : retrive_access_token { b with http_session := some ⟨none⟩ } w
      with ⟨r, w1⟩
    cases r with
    | error e =>
      cases e with
      | requestException hresp =>
        by_cases hfs : b.fail_silently <;> exact ⟨⟨none⟩, by simp [hfs]⟩
      | attributeError => exact ⟨⟨none⟩, by simp⟩
      | keyError => exact ⟨⟨none⟩, by simp⟩
    | ok tok =>
      exact ⟨⟨some ⟨"text/plain", "Bearer " ++ tok.value⟩⟩, by simp⟩

/-- C10: `close` on a backend whose session was never created (as left by
`__init__`) dereferences `None` and fails with an `AttributeError` — it is
not a no-op; it succeeds exactly when a session exists, which is the state
`open` always leaves behind. -/
theorem claim_C10_close_before_open (b : GraphAPIMailBackend) :
    (∀ cid cs tid fs t,
      close_conn (init_backend cid cs tid fs t) = .error .attributeError)
    ∧ (b.http_session = none → close_conn b = .error .attributeError)
    ∧ (∀ s : HttpSession, b.http_session = some s → close_conn b = .ok ())
    ∧ (∀ (b2 : GraphAPIMailBackend) (w : World),
      close_conn ((open_conn b2 w).2.1) = .ok ()) := by
  refine ⟨fun cid cs tid fs t => rfl, ?_, ?_, ?_⟩
  · intro h
    simp [close_conn, h]
  · intro s h
    simp [close_conn, h]
  · intro b2 w
    obtain ⟨s, hs⟩ := open_conn_creates_session b2 w
    simp [close_conn, hs]

/-- Witness for C10: the freshly constructed backend's `close` raises, and
`close` on a backend holding a session succeeds. -/
theorem claim_C10_witness :
    close_conn (init_backend "a" "b" "c" false 5) = .error .attributeError
    ∧ close_conn (⟨"a", "b", "auth", false, 5, none, some ⟨none⟩⟩
        : GraphAPIMailBackend) = .ok () :=
  ⟨(claim_C10_close_before_open c1_b0).1 "a" "b" "c" false 5,
   (claim_C10_close_before_open
     (⟨"a", "b", "auth", false, 5, none, some ⟨none⟩⟩
       : GraphAPIMailBackend)).2.2.1 ⟨none⟩ rfl⟩

/-- C9: once an acquisition attempt has failed with fail-silently on, the
instance is permanently failed.  First conjunct: such a run returns 0 and
leaves a backend whose session exists (with no headers assigned) but whose
token is `None`.  Second conjunct: on any backend in that state, every
`send_messages` call returns 0 immediately with the world untouched — no
POST, so acquisition is never re-attempted. -/
theorem claim_C9_failed_open_is_permanent :
    (∀ (b : GraphAPIMailBackend) (w : World) (msgs : List EmailMessage),
      b.http_session = none → b.access_token = none →
      b.fail_silently = true →
      is_failure_outcome (w.transport w.post_idx) = true →
      (send_messages b w msgs).1 = .ok 0
      ∧ (send_messages b w msgs).2.1.http_session = some ⟨none⟩
      ∧ (send_messages b w msgs).2.1.access_token = none)
    ∧ (∀ (b : GraphAPIMailBackend) (w : World) (msgs : List EmailMessage)
        (s : HttpSession),
      b.http_session = some s → b.access_token = none →
      send_messages b w msgs = (.ok 0, b, w, msgs)) := by
  constructor
  · intro b w msgs h1 h2 h3 h4
    rcases ho : w.transport w.post_idx with ⟨ok2, sc, json⟩ | _
    · rw [ho] at h4
      have hok2 : ok2 = false := by
        cases ok2
        · rfl
        · simp [is_failure_outcome] at h4
      subst hok2
      simp [send_messages, open_conn, h1, retrive_access_token, post_call,
        ho, h3, h2, log_report]
    · simp [send_messages, open_conn, h1, retrive_access_token, post_call,
        ho, h3, h2, log_report]
  · intro b w msgs s h1 h2
    simp [send_messages, open_conn, h1, h2]

/-- Witness for C9: a fail-silent backend against an always-500 transport
returns 0; rerunning `send_messages` on the resulting state returns 0 again
with the world (hence the POST count) unchanged. -/
theorem claim_C9_witness :
    (send_messages c9_b0 c9_w0 [base_msg]).1 = .ok 0
    ∧ send_messages ((send_messages c9_b0 c9_w0 [base_msg]).2.1)
        ((send_messages c9_b0 c9_w0 [base_msg]).2.2.1) [base_msg]
      = (.ok 0, (send_messages c9_b0 c9_w0 [base_msg]).2.1,
         (send_messages c9_b0 c9_w0 [base_msg]).2.2.1, [base_msg]) := by
  have h1 := claim_C9_failed_open_is_permanent.1 c9_b0 c9_w0 [base_msg]
    rfl rfl rfl (by decide)
  exact ⟨h1.1, claim_C9_failed_open_is_permanent.2 _ _ [base_msg] ⟨none⟩
    h1.2.1 h1.2.2⟩

/-- C3: on a fresh backend whose acquisition POST fails (non-success status
or transport raise), `send_messages` with a non-empty batch returns 0 when
failing silently — the world having gained exactly the one acquisition POST
and the failure report, so nothing was sent and the input list is untouched
— and otherwise re-raises the very exception acquisition raised. -/
theorem claim_C3_acquisition_failure (b : GraphAPIMailBackend) (w : World)
    (msgs : List EmailMessage) (h1 : b.http_session = none)
    (h2 : b.access_token = none) (h3 : msgs ≠ [])
    (h4 : is_failure_outcome (w.transport w.post_idx) = true) :
    (b.fail_silently = true →
      send_messages b w msgs
        = (.ok 0, { b with http_session := some ⟨none⟩ },
           { w with post_idx := w.post_idx + 1,
                    trace := w.trace ++ [⟨b.authority,
                      .tokenRequest "client_credentials" b.client_id
                        b.client_secret none (some graph_default_scope), none,
                      w.transport w.post_idx⟩],
                    reports := w.reports ++ [.acquisitionFailure] }, msgs))
    ∧ (b.fail_silently = false →
      (send_messages b w msgs).1
        = .error (acq_failure_error (w.transport w.post_idx))) := by
  constructor
  · intro hfs
    rcases ho : w.transport w.post_idx with ⟨ok2, sc, json⟩ | _
    · rw [ho] at h4
      have hok2 : ok2 = false := by
        cases ok2
        · rfl
        · simp [is_failure_outcome] at h4
      subst hok2
      simp [send_messages, open_conn, h1, retrive_access_token, post_call,
        ho, hfs, h2, log_report]
    · simp [send_messages, open_conn, h1, retrive_access_token, post_call,
        ho, hfs, h2, log_report]
  · intro hfs
    rcases ho : w.transport w.post_idx with ⟨ok2, sc, json⟩ | _
    · rw [ho] at h4
      have hok2 : ok2 = false := by
        cases ok2
        · rfl
        · simp [is_failure_outcome] at h4
      subst hok2
      simp [send_messages, open_conn, h1, retrive_access_token, post_call,
        ho, hfs, h2, log_report, acq_failure_error]
    · simp [send_messages, open_conn, h1, retrive_access_token, post_call,
        ho, hfs, h2, log_report, acq_failure_error]

/-- Witness for C3: a fail-silent run against a 500-ing token endpoint
returns 0 for a one-message batch, and the same scenario with fail-silently
off ends in the `HTTPError` that `raise_for_status` raised. -/
theorem claim_C3_witness :
    (send_messages c9_b0 c9_w0 [base_msg]).1 = .ok 0
    ∧ (send_messages (init_backend "cid" "cs" "tid" false 5) c9_w0
        [base_msg]).1 = .error (.requestException true) := by
  constructor
  · have h := (claim_C3_acquisition_failure c9_b0 c9_w0 [base_msg]
      rfl rfl (by decide) (by decide)).1 rfl
    rw [h]
  · have h := (claim_C3_acquisition_failure
      (init_backend "cid" "cs" "tid" false 5) c9_w0 [base_msg]
      rfl rfl (by decide) (by decide)).2 rfl
    exact h.trans (by decide)

/-- C2: the expiry check of lines 149-150 makes no token-endpoint call while
`now < access_timestamp + expires_in_seconds` (the world only advances its
clock read) and makes exactly one refresh POST (to the authority, with the
stored refresh token) when `now >= access_timestamp + expires_in_seconds`.
On the spec's example — `expires_in = 3736`, checks at T0, T0+1245, T0+1868,
T0+3736 — the four-message batch succeeds with no refresh among the first
three sends and exactly one refresh overall, in 6 POSTs
(1 acquisition + 4 sends + 1 refresh). -/
theorem claim_C2_refresh_only_when_expired :
    (∀ (b : GraphAPIMailBackend) (w : World) (tok : GraphAPIAccessToken)
       (sess : HttpSession),
      b.access_token = some tok → b.http_session = some sess →
      (w.clock w.clock_idx < tok.access_timestamp + tok.expires_in_seconds →
        refresh_if_expired b w
          = (.ok (), b, { w with clock_idx := w.clock_idx + 1 }))
      ∧ (tok.access_timestamp + tok.expires_in_seconds ≤ w.clock w.clock_idx →
        (refresh_if_expired b w).2.2.trace
          = w.trace ++ [⟨b.authority,
              .tokenRequest "refresh_token" b.client_id b.client_secret
                (some tok.refresh_token) none, sess.headers,
              w.transport w.post_idx⟩]
        ∧ (refresh_if_expired b w).2.2.post_idx = w.post_idx + 1))
    ∧ ((send_messages c2_b0 c2_w0 (List.replicate 4 base_msg)).1 = .ok 4
       ∧ ((send_messages c2_b0 c2_w0
            (List.replicate 4 base_msg)).2.2.1.trace.filter
              is_refresh_request).length = 1
       ∧ (((send_messages c2_b0 c2_w0
            (List.replicate 4 base_msg)).2.2.1.trace.take 4).filter
              is_refresh_request).length = 0
       ∧ (send_messages c2_b0 c2_w0
            (List.replicate 4 base_msg)).2.2.1.post_idx = 6) := by
  constructor
  · intro b w tok sess htok hsess
    constructor
    · intro hlive
      exact refresh_if_expired_live b w tok htok hlive
    · intro hexp
      rw [refresh_if_expired_stale_world b w tok htok hexp]
      exact refresh_access_token_run b
        { w with clock_idx := w.clock_idx + 1 } tok sess htok hsess
  · exact ⟨by decide, by decide, by decide, by decide⟩

/-- Witness for C2: the live branch applied on the just-acquired token of
the soft-failure run (check at time 0, expiry at 3736), and the stale branch
applied on an already-expired token, making exactly one refresh POST. -/
theorem claim_C2_witness :
    refresh_if_expired c4_b1 c4_w0
      = (.ok (), c4_b1, { c4_w0 with clock_idx := c4_w0.clock_idx + 1 })
    ∧ (refresh_if_expired
        ({ c4_b1 with access_token := some ⟨"t", 0, "r", 0⟩ }
          : GraphAPIMailBackend) c4_w0).2.2.post_idx
      = c4_w0.post_idx + 1 := by
  refine ⟨(claim_C2_refresh_only_when_expired.1 c4_b1 c4_w0 c4_tok c4_sess
    rfl rfl).1 (by decide), ?_⟩
  exact ((claim_C2_refresh_only_when_expired.1 _ c4_w0 ⟨"t", 0, "r", 0⟩
    c4_sess rfl rfl).2 (by decide)).2

/-- C1, evaluation at the failing input: fresh backend; acquisition returns
token `tok0` with `expires_in = 0`; the single message triggers a refresh
that returns a different token `tok1`; the send succeeds.  After the run the
held token is `tok1`, yet the one send POST carried
`Authorization: Bearer tok0` — the headers assigned in `open` (lines 77-80)
are never updated when line 150 replaces `_access_token`, so the claimed
invariant "the bearer sent equals the currently held token's value" fails. -/
theorem claim_C1_stale_bearer_eval :
    (send_messages c1_b0 c1_w0 [base_msg]).1 = .ok 1
    ∧ (send_messages c1_b0 c1_w0 [base_msg]).2.1.access_token
        = some ⟨"tok1", 0, "r1", 0⟩
    ∧ (send_messages c1_b0 c1_w0 [base_msg]).2.2.1.trace.filter
          is_send_mail_request
        = [⟨construct_send_email_endpoint "from_me@example.com",
            .sendMail base_msg, some ⟨"text/plain", "Bearer tok0"⟩,
            .response true 202 none⟩]
    ∧ ((send_messages c1_b0 c1_w0 [base_msg]).2.2.1.trace.map
          (fun r => r.headers))
        = [none, some ⟨"text/plain", "Bearer tok0"⟩,
           some ⟨"text/plain", "Bearer tok0"⟩]
    ∧ some (⟨"text/plain", "Bearer tok0"⟩ : SessionHeaders)
        ≠ some (⟨"text/plain", "Bearer tok1"⟩ : SessionHeaders) := by
  refine ⟨by decide, by decide, by decide, by decide, by decide⟩

/-- C7: no send is ever undone — for any run, error or not, the request
trace only ever grows (first conjunct).  With fail-silently off, a refresh
failure before the second of three messages aborts with the re-raised
`HTTPError` after 3 POSTs: the successful first send stays recorded, the
refresh failure is the last request, and no POST was made for the third
message (second conjunct).  A transport-level send failure on the second
message likewise aborts with the re-raised `RequestException` after the
acquisition, one successful send and the raising send (third conjunct). -/
theorem claim_C7_abort_keeps_prior_sends :
    (∀ (b : GraphAPIMailBackend) (w : World) (msgs : List EmailMessage),
      ∃ t, (send_messages b w msgs).2.2.1.trace = w.trace ++ t)
    ∧ ((send_messages c7_b0 c7_w0 [c7_mA, c7_mB, c7_mC]).1
        = .error (.requestException true)
       ∧ (send_messages c7_b0 c7_w0
            [c7_mA, c7_mB, c7_mC]).2.2.1.trace.map is_success_send
          = [false, true, false]
       ∧ (send_messages c7_b0 c7_w0
            [c7_mA, c7_mB, c7_mC]).2.2.1.trace.map is_refresh_request
          = [false, false, true]
       ∧ (send_messages c7_b0 c7_w0 [c7_mA, c7_mB, c7_mC]).2.2.1.post_idx = 3)
    ∧ ((send_messages c7_b0 c7t_w0 [c7_mA, c7_mB, c7_mC]).1
        = .error (.requestException false)
       ∧ (send_messages c7_b0 c7t_w0
            [c7_mA, c7_mB, c7_mC]).2.2.1.trace.map is_success_send
          = [false, true, false]
       ∧ (send_messages c7_b0 c7t_w0 [c7_mA, c7_mB, c7_mC]).2.2.1.post_idx
          = 3) := by
  refine ⟨fun b w msgs => send_messages_trace_mono b w msgs,
    ⟨by decide, by decide, by decide, by decide⟩,
    ⟨by decide, by decide, by decide⟩⟩

/-- C8: the loop mutates its input — whenever it completes normally, the
returned message list is the input list with every message that had a
recipient overwritten in its `from_email` field by the normalized address
(line 147 assigns back into the caller's object), recipient-less messages
staying untouched.  Concretely, a caller's message with sender
`"Fred <a@example.com>"` comes back holding `"a@example.com"`. -/
theorem claim_C8_sender_field_mutated :
    (∀ (msgs : List EmailMessage) (b : GraphAPIMailBackend) (w : World)
       (sent n : Nat) (b2 : GraphAPIMailBackend) (w2 : World)
       (msgs2 : List EmailMessage),
      send_loop b w msgs sent = (.ok n, b2, w2, msgs2) →
      msgs2 = msgs.map mutate_message)
    ∧ (send_messages c4_b0 c8_w0 [c8_msg]).2.2.2
        = [{ c8_msg with from_email := "a@example.com" }]
    ∧ c8_msg.from_email = "Fred <a@example.com>" := by
  refine ⟨fun msgs b w sent n b2 w2 msgs2 h =>
    send_loop_ok_msgs msgs b w sent n b2 w2 msgs2 h, by decide, by decide⟩

/-- Witness for C8: the map characterization applied to a concrete
successful one-message run whose sender is in display-name form. -/
theorem claim_C8_witness :
    (send_loop c4_b1 ⟨fun _ => 0, c8_transport, 1, 1, [], []⟩
        [c8_msg] 0).2.2.2
      = [c8_msg].map mutate_message :=
  claim_C8_sender_field_mutated.1 [c8_msg] c4_b1
    ⟨fun _ => 0, c8_transport, 1, 1, [], []⟩ 0 1 _ _ _ rfl

theorem base_msg_mutate :
    ({ subject := base_msg.subject, body := base_msg.body,
       from_email := normalize_from_email base_msg.from_email,
       to_addrs := base_msg.to_addrs, cc := base_msg.cc,
       bcc := base_msg.bcc } : EmailMessage) = base_msg := by decide

/-- C4: a send answered by a non-success status never raises — it is merely
not counted, and the loop continues.  First conjunct: every normal
completion of `send_messages` returns exactly the number of send POSTs in
its trace that carried a success status (so skipped and soft-failed
messages are excluded).  Second conjunct: for every batch of N ≥ 1
identical messages where the transport soft-fails the first send and
succeeds on the rest, the run completes with count N−1 after exactly N+1
POSTs: one token request and N send requests. -/
theorem claim_C4_soft_failure_count :
    (∀ (b : GraphAPIMailBackend) (w : World) (msgs : List EmailMessage)
       (n : Nat) (b2 : GraphAPIMailBackend) (w2 : World)
       (msgs2 : List EmailMessage),
      send_messages b w msgs = (.ok n, b2, w2, msgs2) →
      ∃ t, w2.trace = w.trace ++ t ∧
        n = (t.filter is_success_send).length)
    ∧ (∀ N : Nat, 1 ≤ N →
      (send_messages c4_b0 c4_w0 (List.replicate N base_msg)).1
          = .ok (N - 1)
      ∧ (send_messages c4_b0 c4_w0
          (List.replicate N base_msg)).2.2.1.post_idx = N + 1
      ∧ ((send_messages c4_b0 c4_w0
          (List.replicate N base_msg)).2.2.1.trace.filter
            is_token_request).length = 1
      ∧ ((send_messages c4_b0 c4_w0
          (List.replicate N base_msg)).2.2.1.trace.filter
            is_send_mail_request).length = N) := by
  constructor
  · exact fun b w msgs n b2 w2 msgs2 h =>
      send_messages_ok_count b w msgs n b2 w2 msgs2 h
  · intro N hN
    cases N with
    | zero => exact absurd hN (by omega)
    | succ k =>
      have hopen : open_conn c4_b0 c4_w0
          = (.ok true, c4_b1,
             ⟨fun _ => 0, c4_transport, 1, 1, [c4_acq_req], []⟩) := rfl
      have hpm2 : process_message c4_b1
          ⟨fun _ => 0, c4_transport, 1, 1, [c4_acq_req], []⟩ base_msg
          = (.next false, c4_b1,
             ⟨fun _ => 0, c4_transport, 2, 2,
              [c4_acq_req, c4_fail_req], []⟩) := rfl
      have hfail : send_loop c4_b1
          ⟨fun _ => 0, c4_transport, 1, 1, [c4_acq_req], []⟩
          (base_msg :: List.replicate k base_msg) 0
          = (let r := send_loop c4_b1
               ⟨fun _ => 0, c4_transport, 2, 2,
                [c4_acq_req, c4_fail_req], []⟩
               (List.replicate k base_msg) 0
             (r.1, r.2.1, r.2.2.1, base_msg :: r.2.2.2)) := by
        rw [send_loop_step c4_b1 _ base_msg _ 0 (by decide)]
        dsimp only
        rw [base_msg_mutate, hpm2]
        simp
      have hloop := c4_loop k 2 2 [c4_acq_req, c4_fail_req] [] 0 (by omega)
      have e1 : send_loop c4_b1
          ⟨fun _ => 0, c4_transport, 1, 1, [c4_acq_req], []⟩
          (List.replicate (k + 1) base_msg) 0
          = (.ok (0 + k), c4_b1,
             ⟨fun _ => 0, c4_transport, 2 + k, 2 + k,
              [c4_acq_req, c4_fail_req] ++ List.replicate k c4_ok_req, []⟩,
             base_msg :: List.replicate k base_msg) := by
        rw [List.replicate_succ, hfail]
        dsimp only
        rw [hloop]
      have hcond : ¬ ((!true && c4_b1.access_token.isNone) = true) := by
        decide
      have e2 : send_messages c4_b0 c4_w0 (List.replicate (k + 1) base_msg)
          = (.ok (0 + k), c4_b1,
             log_report
               ⟨fun _ => 0, c4_transport, 2 + k, 2 + k,
                [c4_acq_req, c4_fail_req] ++ List.replicate k c4_ok_req, []⟩
               (.batchSummary (0 + k)
                 (List.replicate (k + 1) base_msg).length),
             base_msg :: List.replicate k base_msg) := by
        simp only [send_messages, hopen]
        rw [if_neg hcond]
        rw [e1]
      refine ⟨?_, ?_, ?_, ?_⟩
      · rw [e2]
        simp
      · rw [e2]
        simp only [log_report]
        show 2 + k = k + 1 + 1
        omega
      · rw [e2]
        simp only [log_report]
        show (([c4_acq_req, c4_fail_req]
            ++ List.replicate k c4_ok_req).filter is_token_request).length = 1
        rw [List.filter_append,
          filter_replicate_of_neg (show is_token_request c4_ok_req = false
            by decide) k]
        decide
      · rw [e2]
        simp only [log_report]
        show (([c4_acq_req, c4_fail_req]
            ++ List.replicate k c4_ok_req).filter
              is_send_mail_request).length = k + 1
        rw [List.filter_append,
          filter_replicate_of_pos (show is_send_mail_request c4_ok_req = true
            by decide) k,
          show [c4_acq_req, c4_fail_req].filter is_send_mail_request
            = [c4_fail_req] by decide]
        simp

/-- Witness for C4: the count characterization and the parametric scenario
evaluated at N = 3 (first send 500, two 202s): count 2 from 4 POSTs. -/
theorem claim_C4_witness :
    (∃ t, (send_messages c4_b0 c4_w0
        (List.replicate 3 base_msg)).2.2.1.trace = c4_w0.trace ++ t
      ∧ 2 = (t.filter is_success_send).length)
    ∧ (send_messages c4_b0 c4_w0 (List.replicate 3 base_msg)).1 = .ok 2 := by
  constructor
  · exact claim_C4_soft_failure_count.1 c4_b0 c4_w0
      (List.replicate 3 base_msg) 2 _ _ _ rfl
  · exact (claim_C4_soft_failure_count.2 3 (by decide)).1
